import Mathlib

/-!
# ESMPP encoder adapter (plugins/obs-ffmpeg/obs-ffmpeg-esmpp.c)

A shallow embedding of the adapter functions of `obs-ffmpeg-esmpp.c`, built with
`ENABLE_HEVC` defined.  Machine integers are mathematical integers with explicit
wrap-around at the width of the C type.  Functions of the host and of the codec
backend that the file calls but does not define are fields of `Backend`; every
call the adapter makes to them is also appended, with its arguments, to a call
log that is threaded through the functions.  `blog` output is not modelled.
-/

namespace Esmpp

/-! ## C integer types -/

/-- Smallest value of a C `int` (32 bit). -/
def INT_MIN : Int := -(2 ^ 31)

/-- Largest value of a C `int` (32 bit). -/
def INT_MAX : Int := 2 ^ 31 - 1

/-- Smallest value of `int64_t`. -/
def INT64_MIN : Int := -(2 ^ 63)

/-- Largest value of `int64_t`. -/
def INT64_MAX : Int := 2 ^ 63 - 1

/-- The conversion `(int)x` of a `long long`: reduction to 32 bit two's complement. -/
def int_cast (x : Int) : Int := (x + 2 ^ 31) % 2 ^ 32 - 2 ^ 31

/-- Reduction of an integer to 64 bit two's complement. -/
def int64_wrap (x : Int) : Int := (x + 2 ^ 63) % 2 ^ 64 - 2 ^ 63

/-- Multiplication of two `int64_t` values. -/
def int64_mul (a b : Int) : Int := int64_wrap (a * b)

/-! ## Strings -/

/-- The character a C string pointer addresses: the first character, or NUL at the end. -/
def cstr_deref (s : List Char) : Char := s.headD (Char.ofNat 0)

/-- Modelled from the spec: the loop of `astrcmpi` (libobs `util/dstr.c`, not in src),
the case-insensitive comparison the adapter applies to `rate_control`.  Both
characters are upper-cased and compared; the loop goes on while neither string
has reached its terminating NUL. -/
def astrcmpi_loop : List Char → List Char → Int
  | str1, str2 =>
    let ch1 := (cstr_deref str1).toUpper
    let ch2 := (cstr_deref str2).toUpper
    if ch1 < ch2 then -1
    else if ch1 > ch2 then 1
    else
      match str1, str2 with
      | c1 :: t1, c2 :: t2 =>
        if c1 ≠ Char.ofNat 0 ∧ c2 ≠ Char.ofNat 0 then astrcmpi_loop t1 t2 else 0
      | _, _ => 0

/-- Modelled from the spec: `astrcmpi` (libobs `util/dstr.c`, not in src), the
case-insensitive string comparison; 0 means equal up to case. -/
def astrcmpi (str1 str2 : String) : Int := astrcmpi_loop str1.data str2.data

/-! ## Video formats -/

/-- Modelled from the spec: the `enum video_format` of libobs (`media-io/video-io.h`,
not in src).  The six formats `valid_format` names are the allow-list of the
spec; the other enumerators are the formats it rejects. -/
inductive video_format
  | VIDEO_FORMAT_NONE
  | VIDEO_FORMAT_I420
  | VIDEO_FORMAT_NV12
  | VIDEO_FORMAT_YVYU
  | VIDEO_FORMAT_YUY2
  | VIDEO_FORMAT_UYVY
  | VIDEO_FORMAT_RGBA
  | VIDEO_FORMAT_BGRA
  | VIDEO_FORMAT_BGRX
  | VIDEO_FORMAT_Y800
  | VIDEO_FORMAT_I444
  | VIDEO_FORMAT_BGR3
  | VIDEO_FORMAT_I422
  | VIDEO_FORMAT_I40A
  | VIDEO_FORMAT_I42A
  | VIDEO_FORMAT_YUVA
  | VIDEO_FORMAT_AYUV
  | VIDEO_FORMAT_I010
  | VIDEO_FORMAT_P010
  | VIDEO_FORMAT_I210
  | VIDEO_FORMAT_I412
  | VIDEO_FORMAT_YA2L
  | VIDEO_FORMAT_P216
  | VIDEO_FORMAT_P416
  | VIDEO_FORMAT_V210
  | VIDEO_FORMAT_R10L
  deriving DecidableEq, Repr

open video_format

/-- The `struct video_scale_info` of libobs; colour space and range are kept as
their enum values. -/
structure video_scale_info where
  format : video_format
  colorspace : Int
  range : Int
  deriving DecidableEq, Repr

/-- The fields of `struct video_output_info` that `esmpp_update` reads. -/
structure video_output_info where
  format : video_format
  colorspace : Int
  range : Int
  fps_num : Int
  fps_den : Int
  deriving DecidableEq, Repr

/-- Source: `valid_format`, lines 35-48. -/
def valid_format (format : video_format) : Bool :=
  match format with
  | VIDEO_FORMAT_I420 => true
  | VIDEO_FORMAT_NV12 => true
  | VIDEO_FORMAT_YVYU => true
  | VIDEO_FORMAT_UYVY => true
  | VIDEO_FORMAT_I010 => true
  | VIDEO_FORMAT_P010 => true
  | _ => false

/-! ## Data model -/

/-- Modelled from the spec: a `DARRAY(uint8_t)` of libobs `util/darray.h` (not in
src), the byte buffer that holds the header or the SEI: the data pointer
(modelled by the bytes it addresses, the empty list for NULL), the element
count and the capacity. -/
structure darray where
  array : List Nat
  num : Nat
  capacity : Nat
  deriving DecidableEq, Repr

/-- The fields of FFmpeg's `AVCodecContext` that the adapter reads or writes. -/
structure AVCodecContext where
  bit_rate : Int
  rc_max_rate : Int
  rc_min_rate : Int
  global_quality : Int
  max_b_frames : Int
  gop_size : Int
  width : Int
  deriving DecidableEq, Repr

/-- The `struct ffmpeg_video_encoder` of `obs-ffmpeg-video-encoders.h`: the host
encoder handle, the encoder name, the codec context and the frame height. -/
structure ffmpeg_video_encoder where
  encoder : Nat
  enc_name : String
  context : AVCodecContext
  height : Int
  deriving DecidableEq, Repr

/-- Source: `struct esmpp_encoder`, lines 8-16. -/
structure esmpp_encoder where
  ffve : ffmpeg_video_encoder
  hevc : Bool
  header : darray
  sei : darray
  dts_offset : Int
  deriving DecidableEq, Repr

/-- The settings object (`obs_data_t`) as the adapter reads it: one field per key.
Integer values are `long long`, as `obs_data_get_int` returns them. -/
structure obs_data where
  rate_control : String
  bitrate : Int
  max_bitrate : Int
  cqp : Int
  keyint_sec : Int
  profile : String
  bf : Int
  ffmpeg_opts : String
  deriving DecidableEq, Repr

/-- An `AVPacket`: data bytes and size. -/
structure AVPacket where
  data : List Nat
  size : Int
  deriving DecidableEq, Repr

/-- The six output parameters of `obs_extract_avc_headers` and
`obs_extract_hevc_headers`. -/
structure extracted_headers where
  new_packet_data : List Nat
  new_packet_size : Nat
  header_data : List Nat
  header_size : Nat
  sei_data : List Nat
  sei_size : Nat
  deriving DecidableEq, Repr

/-- A call the adapter makes to the host or the backend, with its arguments.
The encoder states are the values of the structures at the time of the call. -/
inductive Call
  | av_opt_set (name val : String)
  | av_opt_set_int (name : String) (val : Int)
  | ffmpeg_video_encoder_init (ffve : ffmpeg_video_encoder) (encoder : Nat)
      (enc_lib enc_lib2 enc_name : String)
  | ffmpeg_video_encoder_update (ffve : ffmpeg_video_encoder) (bitrate keyint_sec : Int)
      (voi : video_output_info) (info : video_scale_info) (ffmpeg_opts : String)
  | ffmpeg_video_encoder_init_codec (ffve : ffmpeg_video_encoder)
  | ffmpeg_video_encoder_free (ffve : ffmpeg_video_encoder)
  | da_free_header (header : darray)
  | da_free_sei (sei : darray)
  | bfree_enc
  | obs_extract_avc_headers (packet : List Nat) (size : Int)
  | obs_extract_hevc_headers (packet : List Nat) (size : Int)
  deriving DecidableEq, Repr

/-- The functions the adapter calls and does not define: host queries, the shared
FFmpeg encoder helpers of `obs-ffmpeg-video-encoders.c`, and the header
extractors of libobs.  Each helper maps the encoder state it is handed to the
state it leaves; the two that can fail also return their result. -/
structure Backend where
  obs_encoder_get_preferred_video_format : Nat → video_format
  obs_encoder_video : Nat → Nat
  video_output_get_info : Nat → video_output_info
  base_get_alignment : Int
  ffmpeg_video_encoder_init :
    ffmpeg_video_encoder → Nat → String → String → String → Bool × ffmpeg_video_encoder
  ffmpeg_video_encoder_update :
    ffmpeg_video_encoder → Int → Int → video_output_info → video_scale_info → String →
      ffmpeg_video_encoder
  ffmpeg_video_encoder_init_codec : ffmpeg_video_encoder → Bool × ffmpeg_video_encoder
  obs_extract_avc_headers : List Nat → Int → extracted_headers
  obs_extract_hevc_headers : List Nat → Int → extracted_headers

/-- Source: `ENCODER_NAME_H264`, line 18. -/
def ENCODER_NAME_H264 : String := "H264 ESMPP"

/-- Source: `ENCODER_NAME_HEVC`, line 27. -/
def ENCODER_NAME_HEVC : String := "HEVC ESMPP"

/-! ## Operations -/

/-- Source: `esmpp_video_info`, lines 50-64. -/
def esmpp_video_info (be : Backend) (enc : esmpp_encoder) (info : video_scale_info) :
    video_scale_info :=
  let pref_format := be.obs_encoder_get_preferred_video_format enc.ffve.encoder
  let pref_format :=
    if !valid_format pref_format then
      (if valid_format info.format then info.format else VIDEO_FORMAT_NV12)
    else pref_format
  { info with format := pref_format }

/-- Source: `esmpp_update`, lines 66-140.  The result is the return value, the
encoder state and the extended call log.  The assignment `cqp = 0` of the CBR
branch only feeds the log message and is left out. -/
def esmpp_update (be : Backend) (enc : esmpp_encoder) (settings : obs_data)
    (log : List Call) : Bool × esmpp_encoder × List Call :=
  let rc := settings.rate_control
  let bitrate := int_cast settings.bitrate
  let cqp := int_cast settings.cqp
  let keyint_sec := int_cast settings.keyint_sec
  let profile := settings.profile
  let bf := int_cast settings.bf
  let video := be.obs_encoder_video enc.ffve.encoder
  let voi := be.video_output_get_info video
  let info : video_scale_info :=
    { format := voi.format, colorspace := voi.colorspace, range := voi.range }
  let info := esmpp_video_info be enc info
  let log := log ++ [Call.av_opt_set "rc_mode" rc]
  let log := log ++ [Call.av_opt_set "profile" profile]
  let log := log ++ [Call.av_opt_set_int "v_stride_align" be.base_get_alignment]
  let branch : Int × AVCodecContext × List Call :=
    if astrcmpi rc "cqp" = 0 then
      (0, { enc.ffve.context with global_quality := cqp }, log)
    else if astrcmpi rc "vbr" ≠ 0 then
      let log := log ++ [Call.av_opt_set_int "cbr" 1]
      let rate := int64_mul bitrate 1000
      (bitrate, { enc.ffve.context with rc_max_rate := rate, rc_min_rate := rate }, log)
    else
      (bitrate, enc.ffve.context, log)
  let bitrate := branch.1
  let context := branch.2.1
  let log := branch.2.2
  let context := { context with max_b_frames := bf }
  let ffve := { enc.ffve with context := context }
  let ffmpeg_opts := settings.ffmpeg_opts
  let log := log ++
    [Call.ffmpeg_video_encoder_update ffve bitrate keyint_sec voi info ffmpeg_opts]
  let ffve := be.ffmpeg_video_encoder_update ffve bitrate keyint_sec voi info ffmpeg_opts
  let log := log ++ [Call.ffmpeg_video_encoder_init_codec ffve]
  let res := be.ffmpeg_video_encoder_init_codec ffve
  (res.1, { enc with ffve := res.2 }, log)

/-- Source: `esmpp_reconfigure`, lines 142-158. -/
def esmpp_reconfigure (enc : esmpp_encoder) (settings : obs_data) : Bool × esmpp_encoder :=
  let bitrate := settings.bitrate
  let rc := settings.rate_control
  let cbr := astrcmpi rc "CBR" = 0
  let vbr := astrcmpi rc "VBR" = 0
  let enc :=
    if cbr ∨ vbr then
      let rate := int64_mul bitrate 1000
      { enc with ffve := { enc.ffve with context :=
          { enc.ffve.context with bit_rate := rate, rc_max_rate := rate } } }
    else enc
  (true, enc)

/-- Source: `esmpp_destroy`, lines 160-170.  The adapter is gone afterwards; what
remains is the record of what was released. -/
def esmpp_destroy (enc : esmpp_encoder) (log : List Call) : List Call :=
  let log := log ++ [Call.ffmpeg_video_encoder_free enc.ffve]
  let log := log ++ [Call.da_free_header enc.header]
  let log := log ++ [Call.da_free_sei enc.sei]
  log ++ [Call.bfree_enc]

/-- The zero-initialised darray, as `bzalloc` leaves it. -/
def darray_zero : darray := { array := [], num := 0, capacity := 0 }

/-- Modelled from the spec: the inline `darray_free` of libobs `util/darray.h` (not
in src): the storage is released and the darray is left empty. -/
def darray_free (_ : darray) : darray := darray_zero

/-- Source: `on_first_packet`, lines 187-209.  The result is the encoder state, the
packet darray `da` and the extended call log. -/
def on_first_packet (be : Backend) (enc : esmpp_encoder) (pkt : AVPacket) (da : darray)
    (log : List Call) : esmpp_encoder × darray × List Call :=
  let da := darray_free da
  let out : extracted_headers × List Call :=
    if enc.hevc then
      (be.obs_extract_hevc_headers pkt.data pkt.size,
        log ++ [Call.obs_extract_hevc_headers pkt.data pkt.size])
    else
      (be.obs_extract_avc_headers pkt.data pkt.size,
        log ++ [Call.obs_extract_avc_headers pkt.data pkt.size])
  let ex := out.1
  let da := { da with array := ex.new_packet_data, num := ex.new_packet_size }
  let enc := { enc with
    header := { enc.header with array := ex.header_data, num := ex.header_size },
    sei := { enc.sei with array := ex.sei_data, num := ex.sei_size } }
  let da := { da with capacity := da.num }
  (enc, da, out.2)

/-- The adapter as `bzalloc` returns it: every field zero. -/
def bzalloc_enc : esmpp_encoder :=
  { ffve := { encoder := 0, enc_name := "",
              context := { bit_rate := 0, rc_max_rate := 0, rc_min_rate := 0,
                           global_quality := 0, max_b_frames := 0, gop_size := 0,
                           width := 0 },
              height := 0 },
    hevc := false, header := darray_zero, sei := darray_zero, dts_offset := 0 }

/-- Source: `esmpp_create_internal`, lines 211-244.  `none` is the NULL return. -/
def esmpp_create_internal (be : Backend) (settings : obs_data) (encoder : Nat)
    (hevc : Bool) (log : List Call) : Option esmpp_encoder × List Call :=
  let enc := bzalloc_enc
  let enc := { enc with hevc := hevc }
  let init : Bool × ffmpeg_video_encoder × List Call :=
    if hevc then
      let r := be.ffmpeg_video_encoder_init enc.ffve encoder "hevc_esmpp_encoder"
        "h264_esmpp_encoder" ENCODER_NAME_HEVC
      (r.1, r.2, log ++ [Call.ffmpeg_video_encoder_init enc.ffve encoder
        "hevc_esmpp_encoder" "h264_esmpp_encoder" ENCODER_NAME_HEVC])
    else
      let r := be.ffmpeg_video_encoder_init enc.ffve encoder "h264_esmpp_encoder"
        "h264_esmpp_encoder" ENCODER_NAME_H264
      (r.1, r.2, log ++ [Call.ffmpeg_video_encoder_init enc.ffve encoder
        "h264_esmpp_encoder" "h264_esmpp_encoder" ENCODER_NAME_H264])
  let enc := { enc with ffve := init.2.1 }
  let log := init.2.2
  if !init.1 then
    (none, esmpp_destroy enc log)
  else
    let upd := esmpp_update be enc settings log
    if !upd.1 then
      (none, esmpp_destroy upd.2.1 upd.2.2)
    else
      (some upd.2.1, upd.2.2)

/-- Source: `esmpp_create`, lines 246-254. -/
def esmpp_create (be : Backend) (settings : obs_data) (encoder : Nat) (log : List Call) :
    Option esmpp_encoder × List Call :=
  esmpp_create_internal be settings encoder false log

/-- Source: `esmpp_extra_data`, lines 384-393.  The result is the return value and
the two output parameters `*extra_data` and `*size`. -/
def esmpp_extra_data (enc : esmpp_encoder) : Bool × List Nat × Nat :=
  (true, enc.header.array, enc.header.num)

/-- Source: `esmpp_defaults_base`, lines 276-287, as the settings object in which
every key has its default; `hevc` stands for `codec != CODEC_H264`.  The key
`ffmpeg_opts` has no default. -/
def esmpp_defaults_base (hevc : Bool) : obs_data :=
  { bitrate := 2500, max_bitrate := 5000, keyint_sec := 0, cqp := 20,
    rate_control := "CBR", profile := if hevc then "main" else "high", bf := 0,
    ffmpeg_opts := "" }

/-- The entries of `struct obs_encoder_info` that the adapter fills and that are
modelled here. -/
structure obs_encoder_info where
  id : String
  codec : String
  get_name : String
  create : Backend → obs_data → Nat → List Call → Option esmpp_encoder × List Call
  destroy : esmpp_encoder → List Call → List Call
  get_defaults : obs_data
  get_extra_data : esmpp_encoder → Bool × List Nat × Nat
  get_video_info : Backend → esmpp_encoder → video_scale_info → video_scale_info

/-- Source: `h264_esmpp_encoder_info`, lines 395-407. -/
def h264_esmpp_encoder_info : obs_encoder_info :=
  { id := "ffmpeg_h264_esmpp",
    codec := "h264",
    get_name := ENCODER_NAME_H264,
    create := esmpp_create,
    destroy := esmpp_destroy,
    get_defaults := esmpp_defaults_base false,
    get_extra_data := esmpp_extra_data,
    get_video_info := esmpp_video_info }

/-- Source: `hevc_esmpp_encoder_info`, lines 410-422. -/
def hevc_esmpp_encoder_info : obs_encoder_info :=
  { id := "ffmpeg_hevc_esmpp",
    codec := "hevc",
    get_name := ENCODER_NAME_HEVC,
    create := esmpp_create,
    destroy := esmpp_destroy,
    get_defaults := esmpp_defaults_base true,
    get_extra_data := esmpp_extra_data,
    get_video_info := esmpp_video_info }

/-- The encoder state after a sequence of `esmpp_reconfigure` calls, one per settings
object, in order. -/
def esmpp_reconfigure_all (enc : esmpp_encoder) (ss : List obs_data) : esmpp_encoder :=
  ss.foldl (fun e s => (esmpp_reconfigure e s).2) enc

/-! ## A concrete backend -/

/-- A backend that accepts every configuration, used as the concrete input of the
closed statements below.  Its update stores the target bit rate and leaves the
other fields alone; its AVC extractor takes the first two
bytes of a packet as header and the third as SEI, its HEVC extractor the first
three as header and the fourth as SEI. -/
def accepting_backend : Backend :=
  { obs_encoder_get_preferred_video_format := fun _ => VIDEO_FORMAT_NONE,
    obs_encoder_video := fun e => e,
    video_output_get_info := fun _ =>
      { format := VIDEO_FORMAT_NV12, colorspace := 0, range := 0, fps_num := 30, fps_den := 1 },
    base_get_alignment := 32,
    ffmpeg_video_encoder_init := fun ffve encoder _ _ enc_name =>
      (true, { ffve with encoder := encoder, enc_name := enc_name }),
    ffmpeg_video_encoder_update := fun ffve bitrate _ _ _ _ =>
      { ffve with context := { ffve.context with bit_rate := bitrate * 1000 } },
    ffmpeg_video_encoder_init_codec := fun ffve => (true, ffve),
    obs_extract_avc_headers := fun packet _ =>
      { new_packet_data := packet.drop 3, new_packet_size := (packet.drop 3).length,
        header_data := packet.take 2, header_size := (packet.take 2).length,
        sei_data := (packet.drop 2).take 1, sei_size := ((packet.drop 2).take 1).length },
    obs_extract_hevc_headers := fun packet _ =>
      { new_packet_data := packet.drop 4, new_packet_size := (packet.drop 4).length,
        header_data := packet.take 3, header_size := (packet.take 3).length,
        sei_data := (packet.drop 3).take 1, sei_size := ((packet.drop 3).take 1).length } }

/-- The accepting backend with a codec that cannot be opened:
`ffmpeg_video_encoder_init_codec` fails. -/
def rejecting_backend : Backend :=
  { accepting_backend with ffmpeg_video_encoder_init_codec := fun ffve => (false, ffve) }

/-- The accepting backend without the codec: `ffmpeg_video_encoder_init` fails. -/
def missing_codec_backend : Backend :=
  { accepting_backend with
    ffmpeg_video_encoder_init := fun ffve _ _ _ _ => (false, ffve) }

/-! ## Integer and string lemmas -/

theorem int_cast_of_int (x : Int) (hlo : INT_MIN ≤ x) (hhi : x ≤ INT_MAX) : int_cast x = x := by
  unfold INT_MIN at hlo
  unfold INT_MAX at hhi
  unfold int_cast
  omega

theorem int64_wrap_of_int64 (x : Int) (hlo : INT64_MIN ≤ x) (hhi : x ≤ INT64_MAX) :
    int64_wrap x = x := by
  unfold INT64_MIN at hlo
  unfold INT64_MAX at hhi
  unfold int64_wrap
  omega

theorem int_mul_1000_bounds (x : Int) (hlo : INT_MIN ≤ x) (hhi : x ≤ INT_MAX) :
    INT64_MIN ≤ x * 1000 ∧ x * 1000 ≤ INT64_MAX := by
  unfold INT_MIN at hlo
  unfold INT_MAX at hhi
  unfold INT64_MIN INT64_MAX
  constructor <;> omega

theorem int64_mul_1000_of_int (x : Int) (hlo : INT_MIN ≤ x) (hhi : x ≤ INT_MAX) :
    int64_mul x 1000 = x * 1000 := by
  unfold int64_mul
  exact int64_wrap_of_int64 _ (int_mul_1000_bounds x hlo hhi).1 (int_mul_1000_bounds x hlo hhi).2

/-- NUL is the least character. -/
theorem nul_le (c : Char) : Char.ofNat 0 ≤ c := by
  show (Char.ofNat 0).val ≤ c.val
  exact Nat.zero_le _

/-- Every character other than NUL is above NUL. -/
theorem nul_lt (c : Char) (h : c ≠ Char.ofNat 0) : Char.ofNat 0 < c :=
  lt_of_le_of_ne (nul_le c) (Ne.symm h)

/-- Upper-casing maps only NUL to NUL. -/
theorem toUpper_ne_nul (c : Char) (h : c ≠ Char.ofNat 0) : c.toUpper ≠ Char.ofNat 0 := by
  intro hu
  apply h
  unfold Char.toUpper at hu
  simp only at hu
  split at hu
  · rename_i hc
    obtain ⟨h1, h2⟩ := hc
    generalize c.toNat = n at hu h1 h2
    exfalso
    have h1 : 97 ≤ n := h1
    interval_cases n <;> exact absurd hu (by decide)
  · exact hu

/-- On strings without an embedded NUL, `astrcmpi_loop` returns 0 exactly when the
two strings agree after upper-casing: it is the case-insensitive equality. -/
theorem astrcmpi_loop_eq_zero_iff (a b : List Char) (ha : Char.ofNat 0 ∉ a)
    (hb : Char.ofNat 0 ∉ b) :
    astrcmpi_loop a b = 0 ↔ a.map Char.toUpper = b.map Char.toUpper := by
  induction a generalizing b with
  | nil =>
    cases b with
    | nil => simp [astrcmpi_loop, cstr_deref]
    | cons c t =>
      have hc : c ≠ Char.ofNat 0 := fun h => hb (by simp [h])
      have hlt := nul_lt _ (toUpper_ne_nul c hc)
      have h0 : (Char.ofNat 0).toUpper = Char.ofNat 0 := by decide
      simp [astrcmpi_loop, cstr_deref, h0, hlt]
  | cons c1 t1 ih =>
    cases b with
    | nil =>
      have hc : c1 ≠ Char.ofNat 0 := fun h => ha (by simp [h])
      have hlt := nul_lt _ (toUpper_ne_nul c1 hc)
      have h0 : (Char.ofNat 0).toUpper = Char.ofNat 0 := by decide
      simp [astrcmpi_loop, cstr_deref, h0, hlt, not_lt_of_gt hlt]
    | cons c2 t2 =>
      have hc1 : c1 ≠ Char.ofNat 0 := fun h => ha (by simp [h])
      have hc2 : c2 ≠ Char.ofNat 0 := fun h => hb (by simp [h])
      have ha1 : Char.ofNat 0 ∉ t1 := fun h => ha (List.mem_cons_of_mem _ h)
      have hb1 : Char.ofNat 0 ∉ t2 := fun h => hb (List.mem_cons_of_mem _ h)
      rw [astrcmpi_loop]
      simp only [cstr_deref, List.headD_cons, List.map_cons, List.cons.injEq]
      rcases lt_trichotomy c1.toUpper c2.toUpper with hlt | heq | hgt
      · simp [hlt, ne_of_lt hlt]
      · simp [heq, hc1, hc2, ih t2 ha1 hb1]
      · simp [hgt, not_lt_of_gt hgt, ne_of_gt hgt]

/-- On strings without an embedded NUL, `astrcmpi` returns 0 exactly when the two
strings agree after upper-casing. -/
theorem astrcmpi_eq_zero_iff (a b : String) (ha : Char.ofNat 0 ∉ a.data)
    (hb : Char.ofNat 0 ∉ b.data) :
    astrcmpi a b = 0 ↔ a.data.map Char.toUpper = b.data.map Char.toUpper :=
  astrcmpi_loop_eq_zero_iff a.data b.data ha hb

/-- The empty string and an unknown mode are neither "cqp" nor "vbr"; the mode
names compare equal in either case. -/
theorem astrcmpi_rate_control_samples :
    astrcmpi "" "cqp" ≠ 0 ∧ astrcmpi "" "vbr" ≠ 0 ∧
    astrcmpi "ABR" "cqp" ≠ 0 ∧ astrcmpi "ABR" "vbr" ≠ 0 ∧
    astrcmpi "CBR" "cqp" ≠ 0 ∧ astrcmpi "CBR" "vbr" ≠ 0 ∧
    astrcmpi "CQP" "cqp" = 0 ∧ astrcmpi "VBR" "vbr" = 0 ∧ astrcmpi "cbr" "CBR" = 0 := by
  decide

/-! ## Creation lemmas -/

/-- The three outcomes of `esmpp_create_internal`, by the results of the backend
initialisation and of `esmpp_update`. -/
theorem esmpp_create_internal_cases (be : Backend) (s : obs_data) (e : Nat) (hevc : Bool)
    (log : List Call) :
    let enc0 : esmpp_encoder := { bzalloc_enc with hevc := hevc }
    let enc_lib := if hevc = true then "hevc_esmpp_encoder" else "h264_esmpp_encoder"
    let enc_name := if hevc = true then ENCODER_NAME_HEVC else ENCODER_NAME_H264
    let init := be.ffmpeg_video_encoder_init enc0.ffve e enc_lib "h264_esmpp_encoder" enc_name
    let log1 := log ++
      [Call.ffmpeg_video_encoder_init enc0.ffve e enc_lib "h264_esmpp_encoder" enc_name]
    let upd := esmpp_update be { enc0 with ffve := init.2 } s log1
    esmpp_create_internal be s e hevc log =
      (if init.1 = true then
        (if upd.1 = true then (some upd.2.1, upd.2.2)
         else (none, esmpp_destroy upd.2.1 upd.2.2))
       else (none, esmpp_destroy { enc0 with ffve := init.2 } log1)) := by
  intro enc0 enc_lib enc_name init log1 upd
  cases hevc <;> cases hi : init.1 <;> cases hu : upd.1 <;>
    simp_all [upd, log1, init, enc_name, enc_lib, enc0, esmpp_create_internal]

/-- An adapter that `esmpp_create_internal` returns has the header and SEI buffers
of `bzalloc` and the hevc flag it was asked for. -/
theorem esmpp_create_internal_some (be : Backend) (s : obs_data) (e : Nat) (hevc : Bool)
    (log : List Call) (a : esmpp_encoder)
    (h : (esmpp_create_internal be s e hevc log).1 = some a) :
    a.header = darray_zero ∧ a.sei = darray_zero ∧ a.hevc = hevc := by
  have hc := esmpp_create_internal_cases be s e hevc log
  simp only at hc
  rw [hc] at h
  cases hevc <;> simp only [Bool.false_eq_true, if_false, if_true] at h <;>
    (split at h
     · split at h
       · simp only [Option.some.injEq] at h
         subst h
         exact ⟨rfl, rfl, rfl⟩
       · exact absurd h (by simp)
     · exact absurd h (by simp))

/-! ## Claims -/

/-- C1: for every settings object whose rate_control is neither "cqp" nor "vbr" under
the case-insensitive comparison and whose bitrate is a 32-bit integer,
`esmpp_update` hands the backend update a codec context whose `rc_max_rate` and
`rc_min_rate` are both exactly `bitrate * 1000`, a product that lies within
`int64_t`, together with the unmodified bitrate; the calls it makes are the
three option settings, the "cbr" option, the backend update and the codec
initialisation, in this order. -/
theorem esmpp_update_cbr_rate_bounds (be : Backend) (enc : esmpp_encoder) (s : obs_data)
    (log : List Call)
    (hcqp : astrcmpi s.rate_control "cqp" ≠ 0) (hvbr : astrcmpi s.rate_control "vbr" ≠ 0)
    (hlo : INT_MIN ≤ s.bitrate) (hhi : s.bitrate ≤ INT_MAX) :
    let voi := be.video_output_get_info (be.obs_encoder_video enc.ffve.encoder)
    let info := esmpp_video_info be enc
      { format := voi.format, colorspace := voi.colorspace, range := voi.range }
    let ffve : ffmpeg_video_encoder :=
      { enc.ffve with context :=
          { enc.ffve.context with
            rc_max_rate := s.bitrate * 1000,
            rc_min_rate := s.bitrate * 1000,
            max_b_frames := int_cast s.bf } }
    let ffve1 := be.ffmpeg_video_encoder_update ffve s.bitrate (int_cast s.keyint_sec) voi info
      s.ffmpeg_opts
    (INT64_MIN ≤ s.bitrate * 1000 ∧ s.bitrate * 1000 ≤ INT64_MAX) ∧
    (esmpp_update be enc s log).2.2 = log ++
      [Call.av_opt_set "rc_mode" s.rate_control,
       Call.av_opt_set "profile" s.profile,
       Call.av_opt_set_int "v_stride_align" be.base_get_alignment,
       Call.av_opt_set_int "cbr" 1,
       Call.ffmpeg_video_encoder_update ffve s.bitrate (int_cast s.keyint_sec) voi info
         s.ffmpeg_opts,
       Call.ffmpeg_video_encoder_init_codec ffve1] ∧
    (esmpp_update be enc s log).2.1 =
      { enc with ffve := (be.ffmpeg_video_encoder_init_codec ffve1).2 } ∧
    (esmpp_update be enc s log).1 = (be.ffmpeg_video_encoder_init_codec ffve1).1 := by
  intro voi info ffve ffve1
  refine ⟨int_mul_1000_bounds s.bitrate hlo hhi, ?_, ?_, ?_⟩ <;>
    simp [esmpp_update, hcqp, hvbr, int_cast_of_int s.bitrate hlo hhi,
      int64_mul_1000_of_int s.bitrate hlo hhi, voi, info, ffve, ffve1]

/-- C1, witness: the default settings (rate_control "CBR", bitrate 2500) on a zeroed
adapter with the accepting backend. -/
theorem esmpp_update_cbr_rate_bounds_witness :
    (astrcmpi (esmpp_defaults_base false).rate_control "cqp" ≠ 0 ∧
      astrcmpi (esmpp_defaults_base false).rate_control "vbr" ≠ 0 ∧
      INT_MIN ≤ (esmpp_defaults_base false).bitrate ∧
      (esmpp_defaults_base false).bitrate ≤ INT_MAX) ∧
    (esmpp_update accepting_backend bzalloc_enc (esmpp_defaults_base false) []).2.2 =
      [Call.av_opt_set "rc_mode" "CBR",
       Call.av_opt_set "profile" "high",
       Call.av_opt_set_int "v_stride_align" 32,
       Call.av_opt_set_int "cbr" 1,
       Call.ffmpeg_video_encoder_update
         { bzalloc_enc.ffve with context :=
             { bzalloc_enc.ffve.context with rc_max_rate := 2500000, rc_min_rate := 2500000 } }
         2500 0
         { format := VIDEO_FORMAT_NV12, colorspace := 0, range := 0, fps_num := 30,
           fps_den := 1 }
         { format := VIDEO_FORMAT_NV12, colorspace := 0, range := 0 } "",
       Call.ffmpeg_video_encoder_init_codec
         { bzalloc_enc.ffve with context :=
             { bzalloc_enc.ffve.context with
               bit_rate := 2500000, rc_max_rate := 2500000, rc_min_rate := 2500000 } }] :=
  ⟨⟨by decide, by decide, by decide, by decide⟩,
    (esmpp_update_cbr_rate_bounds accepting_backend bzalloc_enc (esmpp_defaults_base false) []
      (by decide) (by decide) (by decide) (by decide)).2.1⟩

/-- C2, as stated, fails: with rate_control "CQP" and the configured cqp 2147483648,
which is not a 32-bit integer, the context `esmpp_update` hands to the backend
update has `global_quality` -2147483648, the value of the conversion to `int`,
and not the configured value. -/
theorem esmpp_update_cqp_truncates :
    astrcmpi "CQP" "cqp" = 0 ∧
    (esmpp_update accepting_backend bzalloc_enc
        { esmpp_defaults_base false with rate_control := "CQP", cqp := 2147483648 } []).2.2.get? 3 =
      some (Call.ffmpeg_video_encoder_update
         { bzalloc_enc.ffve with context :=
             { bzalloc_enc.ffve.context with global_quality := -2147483648 } }
         0 0
         { format := VIDEO_FORMAT_NV12, colorspace := 0, range := 0, fps_num := 30,
           fps_den := 1 }
         { format := VIDEO_FORMAT_NV12, colorspace := 0, range := 0 } "") ∧
    (esmpp_update accepting_backend bzalloc_enc
        { esmpp_defaults_base false with rate_control := "CQP", cqp := 2147483648 }
        []).2.1.ffve.context.global_quality ≠
      ({ esmpp_defaults_base false with rate_control := "CQP", cqp := 2147483648 } :
        obs_data).cqp := by
  decide

/-- C2, amended: for every settings object whose rate_control equals "cqp" under the
case-insensitive comparison and whose cqp is a 32-bit integer, `esmpp_update`
passes bitrate 0 to the backend update whatever the configured bitrate is, the
context it hands over has `global_quality` equal to the configured cqp value,
and `rc_min_rate` and `rc_max_rate` are as they were before the call; no "cbr"
option is set. -/
theorem esmpp_update_cqp_zero_bitrate (be : Backend) (enc : esmpp_encoder) (s : obs_data)
    (log : List Call) (hcqp : astrcmpi s.rate_control "cqp" = 0)
    (hlo : INT_MIN ≤ s.cqp) (hhi : s.cqp ≤ INT_MAX) :
    let voi := be.video_output_get_info (be.obs_encoder_video enc.ffve.encoder)
    let info := esmpp_video_info be enc
      { format := voi.format, colorspace := voi.colorspace, range := voi.range }
    let ffve : ffmpeg_video_encoder :=
      { enc.ffve with context :=
          { enc.ffve.context with
            global_quality := s.cqp,
            max_b_frames := int_cast s.bf } }
    let ffve1 := be.ffmpeg_video_encoder_update ffve 0 (int_cast s.keyint_sec) voi info
      s.ffmpeg_opts
    (esmpp_update be enc s log).2.2 = log ++
      [Call.av_opt_set "rc_mode" s.rate_control,
       Call.av_opt_set "profile" s.profile,
       Call.av_opt_set_int "v_stride_align" be.base_get_alignment,
       Call.ffmpeg_video_encoder_update ffve 0 (int_cast s.keyint_sec) voi info s.ffmpeg_opts,
       Call.ffmpeg_video_encoder_init_codec ffve1] ∧
    (esmpp_update be enc s log).2.1 =
      { enc with ffve := (be.ffmpeg_video_encoder_init_codec ffve1).2 } ∧
    (esmpp_update be enc s log).1 = (be.ffmpeg_video_encoder_init_codec ffve1).1 ∧
    ffve.context.global_quality = s.cqp ∧
    ffve.context.rc_min_rate = enc.ffve.context.rc_min_rate ∧
    ffve.context.rc_max_rate = enc.ffve.context.rc_max_rate := by
  intro voi info ffve ffve1
  refine ⟨?_, ?_, ?_, rfl, rfl, rfl⟩ <;>
    simp [esmpp_update, hcqp, int_cast_of_int s.cqp hlo hhi, voi, info, ffve, ffve1]

/-- C2, witness: rate_control "CQP" with the default bitrate 2500 and cqp 20 on a
zeroed adapter with the accepting backend. -/
theorem esmpp_update_cqp_zero_bitrate_witness :
    (astrcmpi ({ esmpp_defaults_base false with rate_control := "CQP" } : obs_data).rate_control
      "cqp" = 0 ∧
     INT_MIN ≤ ({ esmpp_defaults_base false with rate_control := "CQP" } : obs_data).cqp ∧
     ({ esmpp_defaults_base false with rate_control := "CQP" } : obs_data).cqp ≤ INT_MAX) ∧
    (esmpp_update accepting_backend bzalloc_enc
        { esmpp_defaults_base false with rate_control := "CQP" } []).2.2 =
      [Call.av_opt_set "rc_mode" "CQP",
       Call.av_opt_set "profile" "high",
       Call.av_opt_set_int "v_stride_align" 32,
       Call.ffmpeg_video_encoder_update
         { bzalloc_enc.ffve with context :=
             { bzalloc_enc.ffve.context with global_quality := 20 } }
         0 0
         { format := VIDEO_FORMAT_NV12, colorspace := 0, range := 0, fps_num := 30,
           fps_den := 1 }
         { format := VIDEO_FORMAT_NV12, colorspace := 0, range := 0 } "",
       Call.ffmpeg_video_encoder_init_codec
         { bzalloc_enc.ffve with context :=
             { bzalloc_enc.ffve.context with global_quality := 20 } }] :=
  ⟨⟨by decide, by decide, by decide⟩,
    (esmpp_update_cqp_zero_bitrate accepting_backend bzalloc_enc
      { esmpp_defaults_base false with rate_control := "CQP" } [] (by decide) (by decide)
      (by decide)).1⟩

/-- C5: for every preferred format P and incoming format F, `esmpp_video_info` sets
the format to P if P is in the allow-list I420, NV12, YVYU, UYVY, I010, P010,
otherwise to F if F is in the allow-list, otherwise to NV12; colour space and
range are left alone, the resulting format is always in the allow-list, and
the function is total. -/
theorem esmpp_video_info_format (be : Backend) (enc : esmpp_encoder)
    (info : video_scale_info) :
    (∀ f : video_format, valid_format f = true ↔
      f ∈ [VIDEO_FORMAT_I420, VIDEO_FORMAT_NV12, VIDEO_FORMAT_YVYU, VIDEO_FORMAT_UYVY,
           VIDEO_FORMAT_I010, VIDEO_FORMAT_P010]) ∧
    (esmpp_video_info be enc info).format =
      (if valid_format (be.obs_encoder_get_preferred_video_format enc.ffve.encoder) = true then
        be.obs_encoder_get_preferred_video_format enc.ffve.encoder
       else if valid_format info.format = true then info.format
       else VIDEO_FORMAT_NV12) ∧
    valid_format (esmpp_video_info be enc info).format = true ∧
    (esmpp_video_info be enc info).colorspace = info.colorspace ∧
    (esmpp_video_info be enc info).range = info.range := by
  refine ⟨fun f => by cases f <;> simp [valid_format], ?_, ?_, rfl, rfl⟩
  · cases h : valid_format (be.obs_encoder_get_preferred_video_format enc.ffve.encoder) <;>
      simp [esmpp_video_info, h]
  · cases h : valid_format (be.obs_encoder_get_preferred_video_format enc.ffve.encoder)
    · cases h2 : valid_format info.format
      · have h3 : valid_format VIDEO_FORMAT_NV12 = true := rfl
        simp [esmpp_video_info, h, h2, h3]
      · simp [esmpp_video_info, h, h2]
    · simp [esmpp_video_info, h]

/-- C6: for every settings object whose rate_control is neither "CBR" nor "VBR" under
the case-insensitive comparison (CQP in particular), `esmpp_reconfigure` returns
true and leaves the whole encoder state, codec context included, as it was. -/
theorem esmpp_reconfigure_noop (enc : esmpp_encoder) (s : obs_data)
    (hcbr : astrcmpi s.rate_control "CBR" ≠ 0) (hvbr : astrcmpi s.rate_control "VBR" ≠ 0) :
    esmpp_reconfigure enc s = (true, enc) := by
  simp [esmpp_reconfigure, hcbr, hvbr]

/-- C6, witness: rate_control "CQP" with a new bitrate on a zeroed adapter. -/
theorem esmpp_reconfigure_noop_witness :
    (astrcmpi "CQP" "CBR" ≠ 0 ∧ astrcmpi "CQP" "VBR" ≠ 0) ∧
    esmpp_reconfigure bzalloc_enc
        { esmpp_defaults_base false with rate_control := "CQP", bitrate := 6000 } =
      (true, bzalloc_enc) :=
  ⟨⟨by decide, by decide⟩,
    esmpp_reconfigure_noop bzalloc_enc
      { esmpp_defaults_base false with rate_control := "CQP", bitrate := 6000 }
      (by decide) (by decide)⟩

/-- C7, as stated, fails: under rate_control "VBR" with bitrate 2500 and max_bitrate
5000, `esmpp_reconfigure` leaves `rc_max_rate` at 2500000, the target, and not at
the configured maximum of 5000 kbps. -/
theorem esmpp_reconfigure_max_rate_not_max_bitrate :
    (esmpp_reconfigure bzalloc_enc
        { esmpp_defaults_base false with rate_control := "VBR" }).2.ffve.context.rc_max_rate
      = 2500000 ∧
    (esmpp_reconfigure bzalloc_enc
        { esmpp_defaults_base false with rate_control := "VBR" }).2.ffve.context.rc_max_rate
      ≠ ({ esmpp_defaults_base false with rate_control := "VBR" } : obs_data).max_bitrate * 1000 := by
  decide

/-- C7, amended: `esmpp_reconfigure` returns true for every input; when rate_control
is "CBR" or "VBR" under the case-insensitive comparison and `bitrate * 1000`
lies within `int64_t`, it sets the context's `bit_rate` and `rc_max_rate` both to
`bitrate * 1000` and changes no other field of the encoder state. -/
theorem esmpp_reconfigure_sets_target_rate (enc : esmpp_encoder) (s : obs_data)
    (hrc : astrcmpi s.rate_control "CBR" = 0 ∨ astrcmpi s.rate_control "VBR" = 0)
    (hlo : INT64_MIN ≤ s.bitrate * 1000) (hhi : s.bitrate * 1000 ≤ INT64_MAX) :
    (∀ (enc1 : esmpp_encoder) (s1 : obs_data), (esmpp_reconfigure enc1 s1).1 = true) ∧
    esmpp_reconfigure enc s =
      (true,
       { enc with ffve := { enc.ffve with context :=
          { enc.ffve.context with
            bit_rate := s.bitrate * 1000,
            rc_max_rate := s.bitrate * 1000 } } }) := by
  refine ⟨fun _ _ => rfl, ?_⟩
  simp [esmpp_reconfigure, hrc, int64_mul, int64_wrap_of_int64 _ hlo hhi]

/-- C7, witness: rate_control "vbr" with bitrate 6000 on a zeroed adapter. -/
theorem esmpp_reconfigure_sets_target_rate_witness :
    (astrcmpi "vbr" "CBR" = 0 ∨ astrcmpi "vbr" "VBR" = 0) ∧
    esmpp_reconfigure bzalloc_enc
        { esmpp_defaults_base false with rate_control := "vbr", bitrate := 6000 } =
      (true,
       { bzalloc_enc with ffve := { bzalloc_enc.ffve with context :=
          { bzalloc_enc.ffve.context with bit_rate := 6000000, rc_max_rate := 6000000 } } }) :=
  ⟨by decide,
    (esmpp_reconfigure_sets_target_rate bzalloc_enc
      { esmpp_defaults_base false with rate_control := "vbr", bitrate := 6000 }
      (by decide) (by decide) (by decide)).2⟩

/-- C8: `esmpp_create_internal` returns an adapter exactly when both
`ffmpeg_video_encoder_init` and `esmpp_update` return true, and then it is the
adapter `esmpp_update` left.  If the initialisation fails, the calls made are
the initialisation followed by the four releases of `esmpp_destroy` (backend
handle, header buffer, SEI buffer, the adapter itself), so `esmpp_update` is not
attempted; if `esmpp_update` fails, its calls are followed by the same four
releases; in both cases NULL is returned. -/
theorem esmpp_create_internal_result (be : Backend) (s : obs_data) (e : Nat) (hevc : Bool)
    (log : List Call) :
    let enc0 : esmpp_encoder := { bzalloc_enc with hevc := hevc }
    let enc_lib := if hevc = true then "hevc_esmpp_encoder" else "h264_esmpp_encoder"
    let enc_name := if hevc = true then ENCODER_NAME_HEVC else ENCODER_NAME_H264
    let init := be.ffmpeg_video_encoder_init enc0.ffve e enc_lib "h264_esmpp_encoder" enc_name
    let log1 := log ++
      [Call.ffmpeg_video_encoder_init enc0.ffve e enc_lib "h264_esmpp_encoder" enc_name]
    let upd := esmpp_update be { enc0 with ffve := init.2 } s log1
    let r := esmpp_create_internal be s e hevc log
    (∀ (enc : esmpp_encoder) (l : List Call), esmpp_destroy enc l = l ++
      [Call.ffmpeg_video_encoder_free enc.ffve, Call.da_free_header enc.header,
       Call.da_free_sei enc.sei, Call.bfree_enc]) ∧
    r.1.isSome = (init.1 && upd.1) ∧
    r.1 = (if (init.1 && upd.1) = true then some upd.2.1 else none) ∧
    r.2 =
      (if init.1 = true then
        (if upd.1 = true then upd.2.2
         else upd.2.2 ++
          [Call.ffmpeg_video_encoder_free upd.2.1.ffve, Call.da_free_header darray_zero,
           Call.da_free_sei darray_zero, Call.bfree_enc])
       else log1 ++
        [Call.ffmpeg_video_encoder_free init.2, Call.da_free_header darray_zero,
         Call.da_free_sei darray_zero, Call.bfree_enc]) := by
  intro enc0 enc_lib enc_name init log1 upd r
  have hd : ∀ (enc : esmpp_encoder) (l : List Call), esmpp_destroy enc l = l ++
      [Call.ffmpeg_video_encoder_free enc.ffve, Call.da_free_header enc.header,
       Call.da_free_sei enc.sei, Call.bfree_enc] := by
    intro enc l
    simp [esmpp_destroy]
  have hr : r = (if init.1 = true then
      (if upd.1 = true then (some upd.2.1, upd.2.2)
       else (none, esmpp_destroy upd.2.1 upd.2.2))
      else (none, esmpp_destroy { enc0 with ffve := init.2 } log1)) :=
    esmpp_create_internal_cases be s e hevc log
  have hh : upd.2.1.header = darray_zero := rfl
  have hs : upd.2.1.sei = darray_zero := rfl
  refine ⟨hd, ?_, ?_, ?_⟩ <;>
    (rw [hr]; cases hi : init.1 <;> cases hu : upd.1 <;> simp [hd, hh, hs]) <;>
    exact ⟨rfl, rfl⟩

/-- The two failing paths of `esmpp_create_internal` on concrete backends: without
the codec only the initialisation and the releases happen; with a codec that
cannot be opened the calls of `esmpp_update` come in between. -/
theorem esmpp_create_internal_failures :
    esmpp_create_internal missing_codec_backend (esmpp_defaults_base false) 7 false [] =
      (none,
       [Call.ffmpeg_video_encoder_init bzalloc_enc.ffve 7 "h264_esmpp_encoder"
          "h264_esmpp_encoder" "H264 ESMPP",
        Call.ffmpeg_video_encoder_free bzalloc_enc.ffve,
        Call.da_free_header darray_zero, Call.da_free_sei darray_zero, Call.bfree_enc]) ∧
    (esmpp_create_internal rejecting_backend (esmpp_defaults_base false) 7 false []).1 = none ∧
    ((esmpp_create_internal rejecting_backend (esmpp_defaults_base false) 7 false []).2.drop 7 =
      [Call.ffmpeg_video_encoder_free
         { encoder := 7, enc_name := "H264 ESMPP", height := 0,
           context := { bzalloc_enc.ffve.context with
             bit_rate := 2500000, rc_max_rate := 2500000, rc_min_rate := 2500000 } },
       Call.da_free_header darray_zero, Call.da_free_sei darray_zero, Call.bfree_enc]) ∧
    (esmpp_create_internal accepting_backend (esmpp_defaults_base false) 7 false []).1.isSome
      = true := by
  decide

/-- C3, evaluated on the code: the `create` entry of `hevc_esmpp_encoder_info` is
`esmpp_create`, which calls `esmpp_create_internal` with `hevc = false`.  With the
accepting backend the adapter it returns has its hevc flag clear, the backend
was initialised with the codec name "h264_esmpp_encoder" and the encoder name
"H264 ESMPP", and `on_first_packet` on that adapter calls the AVC extractor. -/
theorem hevc_esmpp_encoder_info_create_h264 :
    (∀ (be : Backend) (s : obs_data) (e : Nat) (log : List Call),
      hevc_esmpp_encoder_info.create be s e log = esmpp_create_internal be s e false log) ∧
    hevc_esmpp_encoder_info.codec = "hevc" ∧
    (hevc_esmpp_encoder_info.create accepting_backend (esmpp_defaults_base true) 7 []).1.map
      (fun enc => enc.hevc) = some false ∧
    (hevc_esmpp_encoder_info.create accepting_backend (esmpp_defaults_base true) 7 []).2.head? =
      some (Call.ffmpeg_video_encoder_init bzalloc_enc.ffve 7 "h264_esmpp_encoder"
        "h264_esmpp_encoder" "H264 ESMPP") ∧
    (hevc_esmpp_encoder_info.create accepting_backend (esmpp_defaults_base true) 7 []).1.map
      (fun enc => (on_first_packet accepting_backend enc
        { data := [10, 11, 12, 13, 14, 15], size := 6 } darray_zero []).2.2) =
      some [Call.obs_extract_avc_headers [10, 11, 12, 13, 14, 15] 6] := by
  refine ⟨fun _ _ _ _ => rfl, rfl, ?_, ?_, ?_⟩ <;> decide

/-- C4: `esmpp_extra_data` returns true on every adapter; on an adapter that
`esmpp_create_internal` has just returned it gives the empty buffer with size 0;
after `on_first_packet` it gives the header pointer and the header size that
the extractor chosen by the hevc flag produced for that packet.  With the
accepting backend and the packet 10, 11, 12, 13, 14, 15 this is the header
10, 11 of size 2, not the SEI 12 and not the payload 13, 14, 15. -/
theorem esmpp_extra_data_header (be : Backend) (enc : esmpp_encoder) (pkt : AVPacket)
    (da : darray) (log : List Call) (s : obs_data) (e : Nat) (hevc : Bool) :
    (esmpp_extra_data enc).1 = true ∧
    (esmpp_create_internal be s e hevc log).1.map esmpp_extra_data =
      (esmpp_create_internal be s e hevc log).1.map (fun _ => (true, [], 0)) ∧
    esmpp_extra_data (on_first_packet be enc pkt da log).1 =
      (true,
       (if enc.hevc = true then be.obs_extract_hevc_headers pkt.data pkt.size
        else be.obs_extract_avc_headers pkt.data pkt.size).header_data,
       (if enc.hevc = true then be.obs_extract_hevc_headers pkt.data pkt.size
        else be.obs_extract_avc_headers pkt.data pkt.size).header_size) ∧
    (esmpp_create_internal accepting_backend (esmpp_defaults_base false) 7 false []).1.map
      esmpp_extra_data = some (true, [], 0) ∧
    (esmpp_create_internal accepting_backend (esmpp_defaults_base false) 7 false []).1.map
      (fun a => esmpp_extra_data (on_first_packet accepting_backend a
        { data := [10, 11, 12, 13, 14, 15], size := 6 } darray_zero []).1) =
      some (true, [10, 11], 2) := by
  refine ⟨rfl, ?_, ?_, by decide, by decide⟩
  · cases h : (esmpp_create_internal be s e hevc log).1 with
    | none => rfl
    | some a =>
      have ha := (esmpp_create_internal_some be s e hevc log a h).1
      simp [esmpp_extra_data, ha, darray_zero]
  · cases hh : enc.hevc <;> simp [esmpp_extra_data, on_first_packet, hh]

/-- C9, evaluated on the code: `esmpp_update` does not read `max_bitrate`, so two
configurations that differ only in it give the same result, calls and encoder
state, under every rate control.  Under "VBR" with bitrate 2500 the backend
update receives a context whose `rc_max_rate` and `rc_min_rate` are still the 0
of the zeroed context, with max_bitrate 5000 as with 10000. -/
theorem esmpp_update_max_bitrate_unused :
    (∀ (be : Backend) (enc : esmpp_encoder) (s : obs_data) (log : List Call) (m : Int),
      esmpp_update be enc { s with max_bitrate := m } log = esmpp_update be enc s log) ∧
    esmpp_update accepting_backend bzalloc_enc
        { esmpp_defaults_base false with rate_control := "VBR", max_bitrate := 5000 } [] =
      esmpp_update accepting_backend bzalloc_enc
        { esmpp_defaults_base false with rate_control := "VBR", max_bitrate := 10000 } [] ∧
    (esmpp_update accepting_backend bzalloc_enc
        { esmpp_defaults_base false with rate_control := "VBR", max_bitrate := 10000 } []).2.2 =
      [Call.av_opt_set "rc_mode" "VBR",
       Call.av_opt_set "profile" "high",
       Call.av_opt_set_int "v_stride_align" 32,
       Call.ffmpeg_video_encoder_update bzalloc_enc.ffve 2500 0
         { format := VIDEO_FORMAT_NV12, colorspace := 0, range := 0, fps_num := 30,
           fps_den := 1 }
         { format := VIDEO_FORMAT_NV12, colorspace := 0, range := 0 } "",
       Call.ffmpeg_video_encoder_init_codec
         { bzalloc_enc.ffve with context :=
             { bzalloc_enc.ffve.context with bit_rate := 2500000 } }] ∧
    bzalloc_enc.ffve.context.rc_max_rate = 0 ∧ bzalloc_enc.ffve.context.rc_min_rate = 0 := by
  refine ⟨fun _ _ _ _ _ => rfl, rfl, ?_, rfl, rfl⟩
  decide

/-- After a sequence of `esmpp_reconfigure` calls under "CBR" with bitrates in the
range 50..300000, `rc_max_rate` is 1000 times the bitrate of the last call (the
bound it started from if there was none) and `rc_min_rate` is what it was. -/
theorem esmpp_reconfigure_all_cbr (ss : List obs_data)
    (hss : ∀ s ∈ ss, astrcmpi s.rate_control "CBR" = 0 ∧ 50 ≤ s.bitrate ∧ s.bitrate ≤ 300000)
    (enc : esmpp_encoder) (s0 : obs_data)
    (hmax : enc.ffve.context.rc_max_rate = 1000 * s0.bitrate) :
    (esmpp_reconfigure_all enc ss).ffve.context.rc_max_rate = 1000 * (ss.getLastD s0).bitrate ∧
    (esmpp_reconfigure_all enc ss).ffve.context.rc_min_rate = enc.ffve.context.rc_min_rate := by
  induction ss generalizing enc s0 with
  | nil => exact ⟨hmax, rfl⟩
  | cons s t ih =>
    obtain ⟨hrc, hlo, hhi⟩ := hss s (List.mem_cons_self s t)
    have hw : int64_mul s.bitrate 1000 = s.bitrate * 1000 := by
      unfold int64_mul int64_wrap
      omega
    have hstep : (esmpp_reconfigure enc s).2 =
        { enc with ffve := { enc.ffve with context :=
          { enc.ffve.context with
            bit_rate := s.bitrate * 1000,
            rc_max_rate := s.bitrate * 1000 } } } := by
      simp [esmpp_reconfigure, hrc, hw]
    have h := ih (fun x hx => hss x (List.mem_cons_of_mem s hx)) (esmpp_reconfigure enc s).2 s
      (by rw [hstep]; exact mul_comm _ _)
    have hl : (s :: t).getLastD s0 = t.getLastD s := by cases t <;> rfl
    have hfold : esmpp_reconfigure_all enc (s :: t) =
        esmpp_reconfigure_all (esmpp_reconfigure enc s).2 t := rfl
    rw [hfold, hl]
    refine ⟨h.1, ?_⟩
    rw [h.2, hstep]

/-- C10, as stated, fails: after `esmpp_update` under "CBR" with bitrate 2500 and one
`esmpp_reconfigure` under "CBR" with bitrate 5000 (accepting backend, zeroed
adapter), `rc_max_rate` is 5000000 and `rc_min_rate` is still 2500000, not
1000 times the most recently configured bitrate. -/
theorem esmpp_reconfigure_cbr_min_rate_stale :
    (esmpp_update accepting_backend bzalloc_enc (esmpp_defaults_base false) []).2.1.ffve.context
      = { bzalloc_enc.ffve.context with
          bit_rate := 2500000, rc_max_rate := 2500000, rc_min_rate := 2500000 } ∧
    (esmpp_reconfigure
        (esmpp_update accepting_backend bzalloc_enc (esmpp_defaults_base false) []).2.1
        { esmpp_defaults_base false with bitrate := 5000 }).2.ffve.context
      = { bzalloc_enc.ffve.context with
          bit_rate := 5000000, rc_max_rate := 5000000, rc_min_rate := 2500000 } ∧
    (esmpp_reconfigure
        (esmpp_update accepting_backend bzalloc_enc (esmpp_defaults_base false) []).2.1
        { esmpp_defaults_base false with bitrate := 5000 }).2.ffve.context.rc_min_rate
      ≠ 1000 * ({ esmpp_defaults_base false with bitrate := 5000 } : obs_data).bitrate := by
  decide

/-- C10, amended: in every state reached by `esmpp_update` under CBR (rate_control
neither "cqp" nor "vbr") followed by any number of `esmpp_reconfigure` calls
under "CBR", all bitrates in the range 50..300000, with a backend whose update
and codec initialisation leave the two rate bounds as they were handed over,
`rc_max_rate` equals 1000 times the most recently configured bitrate and
`rc_min_rate` equals 1000 times the bitrate given to `esmpp_update`:
`esmpp_reconfigure` does not write `rc_min_rate`. -/
theorem esmpp_reconfigure_cbr_rate_bounds (be : Backend) (enc : esmpp_encoder)
    (s0 : obs_data) (log : List Call) (ss : List obs_data)
    (hcqp : astrcmpi s0.rate_control "cqp" ≠ 0) (hvbr : astrcmpi s0.rate_control "vbr" ≠ 0)
    (hlo : 50 ≤ s0.bitrate) (hhi : s0.bitrate ≤ 300000)
    (hss : ∀ s ∈ ss, astrcmpi s.rate_control "CBR" = 0 ∧ 50 ≤ s.bitrate ∧ s.bitrate ≤ 300000)
    (hupd : ∀ (ffve : ffmpeg_video_encoder) (b k : Int) (voi : video_output_info)
      (info : video_scale_info) (opts : String),
      (be.ffmpeg_video_encoder_update ffve b k voi info opts).context.rc_max_rate =
        ffve.context.rc_max_rate ∧
      (be.ffmpeg_video_encoder_update ffve b k voi info opts).context.rc_min_rate =
        ffve.context.rc_min_rate)
    (hopen : ∀ ffve : ffmpeg_video_encoder,
      (be.ffmpeg_video_encoder_init_codec ffve).2.context.rc_max_rate =
        ffve.context.rc_max_rate ∧
      (be.ffmpeg_video_encoder_init_codec ffve).2.context.rc_min_rate =
        ffve.context.rc_min_rate) :
    (esmpp_reconfigure_all (esmpp_update be enc s0 log).2.1 ss).ffve.context.rc_max_rate =
      1000 * (ss.getLastD s0).bitrate ∧
    (esmpp_reconfigure_all (esmpp_update be enc s0 log).2.1 ss).ffve.context.rc_min_rate =
      1000 * s0.bitrate := by
  have h1 : INT_MIN ≤ s0.bitrate := by unfold INT_MIN; omega
  have h2 : s0.bitrate ≤ INT_MAX := by unfold INT_MAX; omega
  have hu : (esmpp_update be enc s0 log).2.1.ffve.context.rc_max_rate = 1000 * s0.bitrate ∧
      (esmpp_update be enc s0 log).2.1.ffve.context.rc_min_rate = 1000 * s0.bitrate := by
    simp [esmpp_update, hcqp, hvbr, int_cast_of_int s0.bitrate h1 h2,
      int64_mul_1000_of_int s0.bitrate h1 h2, hupd, hopen, mul_comm]
  have h := esmpp_reconfigure_all_cbr ss hss (esmpp_update be enc s0 log).2.1 s0 hu.1
  exact ⟨h.1, h.2.trans hu.2⟩

/-- C10, witness: the default settings (rate_control "CBR", bitrate 2500) given to
`esmpp_update`, then `esmpp_reconfigure` with bitrate 5000 and with bitrate 3000,
on a zeroed adapter with the accepting backend. -/
theorem esmpp_reconfigure_cbr_rate_bounds_witness :
    (astrcmpi (esmpp_defaults_base false).rate_control "cqp" ≠ 0 ∧
     astrcmpi (esmpp_defaults_base false).rate_control "vbr" ≠ 0 ∧
     astrcmpi (esmpp_defaults_base false).rate_control "CBR" = 0) ∧
    (esmpp_reconfigure_all
        (esmpp_update accepting_backend bzalloc_enc (esmpp_defaults_base false) []).2.1
        [{ esmpp_defaults_base false with bitrate := 5000 },
         { esmpp_defaults_base false with bitrate := 3000 }]).ffve.context.rc_max_rate =
      1000 * 3000 ∧
    (esmpp_reconfigure_all
        (esmpp_update accepting_backend bzalloc_enc (esmpp_defaults_base false) []).2.1
        [{ esmpp_defaults_base false with bitrate := 5000 },
         { esmpp_defaults_base false with bitrate := 3000 }]).ffve.context.rc_min_rate =
      1000 * 2500 :=
  ⟨by decide,
    esmpp_reconfigure_cbr_rate_bounds accepting_backend bzalloc_enc (esmpp_defaults_base false) []
      [{ esmpp_defaults_base false with bitrate := 5000 },
       { esmpp_defaults_base false with bitrate := 3000 }]
      (by decide) (by decide) (by decide) (by decide) (by decide)
      (fun _ _ _ _ _ _ => ⟨rfl, rfl⟩) (fun _ => ⟨rfl, rfl⟩)⟩

end Esmpp
